import Mathlib

/-!
Shallow embedding of `src/server.js` (mesanjusk/whatsapp-server).

The server keeps a module-level object `sessions` mapping a session id to
either `null` or a record `{ client, latestQR, isReady }`.  We model that
object as an insertion-ordered association list whose values are
`Option SessionEntry` (`none` models a `null` entry; an absent key models a
key that was never assigned or was removed with `delete`).  JavaScript
`for...in` and `Object.keys` enumerate own string keys with canonical
array-index keys first, in ascending numeric order, followed by the other
keys in insertion order; `iterOrder` implements that rule.

Provider calls (`client.sendMessage`), the message store
(`Message.create`) and the wall clock (`new Date()`) are externals: they
enter the model as explicit parameters (an `Except` outcome per call, a
`Nat` timestamp).  `await client.initialize()` never touches the registry,
so `setupSession` below is the synchronous part of the JS function, which
runs atomically on the event loop (from the guard to the registry
assignment there is no `await`).
-/

namespace WhatsAppServer

/-- Registry entry for one live session, mirroring
`sessions[sessionId] = { client, latestQR, isReady }` in `setupSession`.
The MessagingClient is represented by a numeric tag so that distinct
constructed clients can be counted. -/
structure SessionEntry where
  client : Nat
  latestQR : Option String
  isReady : Bool
deriving DecidableEq, Repr

/-- The `sessions` object: an insertion-ordered association list.
A value `none` models a `null` entry (after `disconnected` or logout);
an absent key models a key never assigned or removed by `delete`. -/
abbrev Reg := List (String × Option SessionEntry)

/-- Property read `sessions[id]`: `none` for an absent key,
`some v` for a present key holding `v`. -/
def lookupKey : Reg → String → Option (Option SessionEntry)
  | [], _ => none
  | (k, w) :: rest, id => if k = id then some w else lookupKey rest id

/-- Property write `sessions[id] = v`: updates in place when the key is
present (JavaScript keeps the key's position), appends otherwise
(a new key enumerates last among non-index keys). -/
def setEntry : Reg → String → Option SessionEntry → Reg
  | [], id, v => [(id, v)]
  | (k, w) :: rest, id, v =>
      if k = id then (id, v) :: rest else (k, w) :: setEntry rest id v

/-- Property removal `delete sessions[id]`. -/
def deleteKey : Reg → String → Reg
  | [], _ => []
  | (k, w) :: rest, id => if k = id then rest else (k, w) :: deleteKey rest id

/-- Numeric value of a digit string (used only on all-digit keys). -/
def strToNat (s : String) : Nat :=
  s.toList.foldl (fun n c => n * 10 + (c.toNat - 48)) 0

/-- Canonical array-index key in the ECMAScript sense: a non-empty digit
string without a leading zero (except "0" itself) whose value is below
2^32 - 1.  Such keys enumerate before all other string keys. -/
def isArrayIndexKey (s : String) : Bool :=
  decide (0 < s.toList.length) && s.toList.all Char.isDigit &&
    (s == "0" || s.toList.headD '0' != '0') &&
    decide (strToNat s < 4294967295)

/-- Insertion step of the ascending sort of array-index keys. -/
def insertAsc (x : String × Option SessionEntry) :
    Reg → Reg
  | [] => [x]
  | y :: ys =>
      if strToNat x.1 ≤ strToNat y.1 then x :: y :: ys else y :: insertAsc x ys

/-- Ascending insertion sort by numeric key value. -/
def sortAsc : Reg → Reg
  | [] => []
  | x :: xs => insertAsc x (sortAsc xs)

/-- Enumeration order of `for...in` / `Object.keys` over the `sessions`
object: canonical array-index keys in ascending numeric order first, then
the remaining keys in insertion order. -/
def iterOrder (reg : Reg) : Reg :=
  sortAsc (reg.filter fun p => isArrayIndexKey p.1) ++
    reg.filter fun p => !isArrayIndexKey p.1

/-- Global server state relevant to session creation: the `sessions`
object plus a count of MessagingClients constructed so far (the count
doubles as the tag of the next client). -/
structure RegState where
  reg : Reg
  clientsCreated : Nat
deriving DecidableEq, Repr

/-- Synchronous part of `setupSession(sessionId)`: the guard
`if (sessions[sessionId]?.client) return;` followed by construction of the
MongoStore and the Client and the assignment
`sessions[sessionId] = { client, latestQR: null, isReady: false }`.
There is no `await` between the guard and the assignment, so this block is
atomic on the event loop; the trailing `await client.initialize()` does
not touch the registry. -/
def setupSession (st : RegState) (id : String) : RegState :=
  match lookupKey st.reg id with
  | some (some _) => st
  | _ =>
      { reg := setEntry st.reg id
          (some { client := st.clientsCreated, latestQR := none, isReady := false }),
        clientsCreated := st.clientsCreated + 1 }

/-- Provider lifecycle events delivered to the handlers registered in
`setupSession`.  The `qr` payload stands for the data-URL image produced
by `qrcode.toDataURL`. -/
inductive ClientEvent where
  | qr (payload : String)
  | authenticated
  | ready
  | disconnected
deriving DecidableEq, Repr

/-- Effect of one provider event on the registry, per the handlers in
`setupSession`: `qr` stores the payload (`sessions[sessionId].latestQR =
imageUrl` throws on a `null` or absent entry before mutating, leaving the
registry unchanged); `authenticated` only logs; `ready` sets
`isReady = true` and clears `latestQR` (again throwing, hence unchanged,
on a missing entry); `disconnected` assigns `sessions[sessionId] = null`
unconditionally. -/
def applyEvent (reg : Reg) (id : String) : ClientEvent → Reg
  | .qr payload =>
      match lookupKey reg id with
      | some (some e) => setEntry reg id (some { e with latestQR := some payload })
      | _ => reg
  | .authenticated => reg
  | .ready =>
      match lookupKey reg id with
      | some (some e) =>
          setEntry reg id (some { e with isReady := true, latestQR := none })
      | _ => reg
  | .disconnected => setEntry reg id none

/-- Folds a sequence of provider events for one session over the registry. -/
def applyEvents (reg : Reg) (id : String) (evs : List ClientEvent) : Reg :=
  evs.foldl (fun r e => applyEvent r id e) reg

/-- Session lifecycle states of the specification, derived from a registry
value: a `null` entry is Terminated; otherwise `isReady` means Ready, a
pending QR payload means AwaitingScan, and a fresh entry is
Uninitialized. -/
inductive SessionState where
  | Uninitialized
  | AwaitingScan
  | Ready
  | Terminated
deriving DecidableEq, Repr

/-- State classification of one registry value. -/
def entryState : Option SessionEntry → SessionState
  | none => .Terminated
  | some e =>
      if e.isReady then .Ready
      else if e.latestQR.isSome then .AwaitingScan
      else .Uninitialized

/-- Persisted message record, mirroring the Mongoose schema
`{ sessionId, from, to, text, time }`. -/
structure MessageRecord where
  sessionId : String
  «from» : String
  «to» : String
  text : String
  time : Nat
deriving DecidableEq, Repr

/-- Events emitted on a session's socket.io room (`io.to(sessionId)`) or
directly to one socket. -/
inductive ChannelEvent where
  | qr (payload : String)
  | ready
  | disconnected
  | message (sender text : String) (time : Nat)
deriving DecidableEq, Repr

/-- Removes the first occurrence of `pat` from a character list, as
JavaScript `String.prototype.replace` with a string pattern and an empty
replacement does. -/
def stripFirst (pat : List Char) : List Char → List Char
  | [] => []
  | c :: rest =>
      if pat.isPrefixOf (c :: rest) then (c :: rest).drop pat.length
      else c :: stripFirst pat rest

/-- Sender normalization `msg.from.replace("@c.us", "")`: deletes the
first occurrence of "@c.us". -/
def normalizeFrom (s : String) : String :=
  String.mk (stripFirst "@c.us".toList s.toList)

/-- Observable outcome of the inbound `message` handler: the records
written to the store and the events published on the session's room. -/
structure InboundOutcome where
  persisted : List MessageRecord
  published : List ChannelEvent
deriving DecidableEq, Repr

/-- Inbound `client.on("message")` handler.  The handler normalizes the
sender, then runs `await Message.create({sessionId, from, to: sessionId,
text, time})` with no surrounding try/catch, and only afterwards reaches
`io.to(sessionId).emit("message", ...)`.  `storeOk` is the outcome of the
store write: when it rejects, the `await` aborts the handler before the
emit, so neither a record nor a publish is produced. -/
def handleInboundMessage (sessionId msgFrom msgBody : String) (now : Nat)
    (storeOk : Bool) : InboundOutcome :=
  let sender := normalizeFrom msgFrom
  if storeOk then
    { persisted :=
        [{ sessionId := sessionId, «from» := sender, «to» := sessionId,
           text := msgBody, time := now }],
      published := [.message sender msgBody now] }
  else { persisted := [], published := [] }

/-- HTTP response of the send endpoint: `ok` is
`res.json({success: true, messageId})`, `err` is
`res.status(s).json({error})`. -/
inductive SendResponse where
  | ok (messageId : String)
  | err (status : Nat) (msg : String)
deriving DecidableEq, Repr

/-- Observable outcome of one `/api/send` request: whether the provider's
`sendMessage` was invoked, what was persisted, and the HTTP response. -/
structure SendOutcome where
  providerCalled : Bool
  persisted : List MessageRecord
  response : SendResponse
deriving DecidableEq, Repr

/-- Handler of `POST /api/send`.  An absent, `null`, or not-ready session
yields 400 "Session not ready" before the provider is contacted.
Otherwise `session.client.sendMessage` runs with outcome `provider`; on
success the store write (outcome `store`) runs and, when it also
succeeds, the record `(sessionId, "admin", number, message, now)` is
persisted and the provider-issued id returned; a thrown error from either
`await` lands in the catch block as a 500 with the error's message. -/
def apiSend (reg : Reg) (sessionId number body : String)
    (provider : Except String String) (store : Except String Unit)
    (now : Nat) : SendOutcome :=
  match lookupKey reg sessionId with
  | some (some e) =>
      if e.isReady then
        match provider with
        | .ok mid =>
            match store with
            | .ok _ =>
                { providerCalled := true,
                  persisted :=
                    [{ sessionId := sessionId, «from» := "admin", «to» := number,
                       text := body, time := now }],
                  response := .ok mid }
            | .error se =>
                { providerCalled := true, persisted := [],
                  response := .err 500 se }
        | .error m =>
            { providerCalled := true, persisted := [], response := .err 500 m }
      else
        { providerCalled := false, persisted := [],
          response := .err 400 "Session not ready" }
  | _ =>
      { providerCalled := false, persisted := [],
        response := .err 400 "Session not ready" }

/-- One element of the `/api/broadcast` response array. -/
structure BroadcastResult where
  sessionId : String
  success : Bool
  messageId : Option String
  error : Option String
deriving DecidableEq, Repr

/-- Loop body of `POST /api/broadcast` over an already-enumerated key
order: per entry, a ready session gets one provider `sendMessage` call
(recorded in the second component) whose success or failure becomes that
session's result; a `null` or not-ready entry yields the
"Session not ready" result without contacting the provider.  Each `await`
is inside the per-iteration try/catch, so an iteration's failure reaches
only its own result. -/
def broadcastLoop (provider : String → Except String String) :
    Reg → List BroadcastResult × List String
  | [] => ([], [])
  | (id, ent) :: rest =>
      let tail := broadcastLoop provider rest
      match ent with
      | some e =>
          if e.isReady then
            match provider id with
            | .ok mid =>
                ({ sessionId := id, success := true, messageId := some mid,
                   error := none } :: tail.1, id :: tail.2)
            | .error m =>
                ({ sessionId := id, success := false, messageId := none,
                   error := some m } :: tail.1, id :: tail.2)
          else
            ({ sessionId := id, success := false, messageId := none,
               error := some "Session not ready" } :: tail.1, tail.2)
      | none =>
          ({ sessionId := id, success := false, messageId := none,
             error := some "Session not ready" } :: tail.1, tail.2)

/-- Response array of `POST /api/broadcast`: the loop runs over
`for (const sessionId in sessions)`, i.e. over `iterOrder`. -/
def apiBroadcast (reg : Reg) (provider : String → Except String String) :
    List BroadcastResult :=
  (broadcastLoop provider (iterOrder reg)).1

/-- Session ids for which `/api/broadcast` invoked the provider's
`sendMessage`, in call order. -/
def broadcastCalls (reg : Reg) (provider : String → Except String String) :
    List String :=
  (broadcastLoop provider (iterOrder reg)).2

/-- One element of the `GET /api/sessions` response. -/
structure SessionSummary where
  sessionId : String
  isReady : Bool
  hasQR : Bool
deriving DecidableEq, Repr

/-- Handler of `GET /api/sessions`: `Object.keys(sessions)` mapped to
`{sessionId, isReady: ...?.isReady || false, hasQR: !!...?.latestQR}`. -/
def apiSessions (reg : Reg) : List SessionSummary :=
  (iterOrder reg).map fun p =>
    { sessionId := p.1,
      isReady := match p.2 with | some e => e.isReady | none => false,
      hasQR := match p.2 with | some e => e.latestQR.isSome | none => false }

/-- Handler of `GET /api/status/:sessionId`:
`sessions[sessionId]?.isReady || false`. -/
def apiStatus (reg : Reg) (id : String) : Bool :=
  match lookupKey reg id with
  | some (some e) => e.isReady
  | _ => false

/-- HTTP response of the logout and delete endpoints: `ok` is
`res.json({success: true, message})`, `err` is
`res.status(s).json({error})`. -/
inductive TeardownResponse where
  | ok (msg : String)
  | err (status : Nat) (msg : String)
deriving DecidableEq, Repr

/-- Observable outcome of the logout and delete endpoints: the registry
afterwards, the HTTP response (`none` when the handler aborted on an
uncaught rejection and never answered), and which provider teardown calls
were attempted. -/
structure RemoveOutcome where
  reg : Reg
  response : Option TeardownResponse
  logoutCalled : Bool
  destroyCalled : Bool
deriving DecidableEq, Repr

/-- Handler of `GET /api/logout/:sessionId`.  When the entry holds a
client, `await session.client.logout()` and then
`await session.client.destroy()` run with no try/catch: a rejection of
`logout` aborts the handler before `destroy`, a rejection of `destroy`
aborts it after both calls — in either abort the entry is not nulled and
no response is sent.  Only when both resolve does `sessions[sessionId] =
null` run and success get answered.  A missing or `null` entry answers
400 "Session not found" with no provider call and no side effect. -/
def apiLogout (reg : Reg) (id : String)
    (logoutResult destroyResult : Except String Unit) : RemoveOutcome :=
  match lookupKey reg id with
  | some (some _) =>
      match logoutResult with
      | .error _ =>
          { reg := reg, response := none,
            logoutCalled := true, destroyCalled := false }
      | .ok _ =>
          match destroyResult with
          | .error _ =>
              { reg := reg, response := none,
                logoutCalled := true, destroyCalled := true }
          | .ok _ =>
              { reg := setEntry reg id none,
                response := some (.ok (id ++ " logged out")),
                logoutCalled := true, destroyCalled := true }
  | _ =>
      { reg := reg, response := some (.err 400 "Session not found"),
        logoutCalled := false, destroyCalled := false }

/-- Handler of `DELETE /api/session/:sessionId`.  Inside its try/catch it
awaits `deleteMany` on the stored credentials (outcome `dbResult`); a
rejection lands in the catch as a 500 carrying the error message, with
the registry untouched.  On success it calls
`sessions[sessionId]?.client?.destroy()` — not awaited, so a later
rejection cannot change the handler's course; a no-op on a missing or
`null` entry; not a logout — then `delete sessions[sessionId]` and
answers success. -/
def apiDeleteSession (reg : Reg) (id : String)
    (dbResult : Except String Unit) : RemoveOutcome :=
  match dbResult with
  | .error m =>
      { reg := reg, response := some (.err 500 m),
        logoutCalled := false, destroyCalled := false }
  | .ok _ =>
      { reg := deleteKey reg id,
        response := some (.ok (id ++ " session deleted")),
        logoutCalled := false,
        destroyCalled :=
          match lookupKey reg id with | some (some _) => true | _ => false }

/-- Replay performed by the socket `join` handler after `await
setupSession(sessionId)`: `const qr = sessions[sessionId]?.latestQR;
if (qr) socket.emit("qr", qr); else if (sessions[sessionId]?.isReady)
socket.emit("ready");`. -/
def joinReplay (reg : Reg) (id : String) : Option ChannelEvent :=
  match lookupKey reg id with
  | some (some e) =>
      match e.latestQR with
      | some q => some (.qr q)
      | none => if e.isReady then some .ready else none
  | _ => none

/-- Whole `socket.on("join")` handler: joins the room, runs
`setupSession`, then replays the current state to the joining socket. -/
def socketJoin (st : RegState) (id : String) :
    RegState × Option ChannelEvent :=
  let st' := setupSession st id
  (st', joinReplay st'.reg id)

/-- Number of occurrences of a key in the registry. -/
def countKey (reg : Reg) (id : String) : Nat :=
  (reg.filter fun p => p.1 = id).length

/-- Reading back a key just written yields the written value. -/
theorem lookup_setEntry_self (reg : Reg) (id : String)
    (v : Option SessionEntry) :
    lookupKey (setEntry reg id v) id = some v := by
  induction reg with
  | nil => simp [setEntry, lookupKey]
  | cons p rest ih =>
      obtain ⟨k, w⟩ := p
      by_cases h : k = id
      · simp [setEntry, h, lookupKey]
      · simp [setEntry, h, lookupKey, ih]

/-- A successful lookup exhibits a member of the registry. -/
theorem lookup_mem {reg : Reg} {id : String} {v : Option SessionEntry}
    (h : lookupKey reg id = some v) : (id, v) ∈ reg := by
  induction reg with
  | nil => simp [lookupKey] at h
  | cons p rest ih =>
      obtain ⟨k, w⟩ := p
      by_cases hk : k = id
      · subst hk
        have hwv : w = v := by simpa [lookupKey] using h
        subst hwv
        exact List.mem_cons_self _ _
      · simp only [lookupKey, if_neg hk] at h
        exact List.mem_cons_of_mem _ (ih h)

/-- A key absent from the key list never looks up. -/
theorem lookup_eq_none_of_not_mem {reg : Reg} {id : String}
    (h : id ∉ reg.map Prod.fst) : lookupKey reg id = none := by
  induction reg with
  | nil => rfl
  | cons p rest ih =>
      obtain ⟨k, w⟩ := p
      simp only [List.map_cons, List.mem_cons] at h
      push_neg at h
      obtain ⟨h1, h2⟩ := h
      simp only [lookupKey]
      rw [if_neg (by intro hk; exact h1 hk.symm)]
      exact ih h2

/-- Membership is preserved by the insertion step of the sort. -/
theorem mem_insertAsc (x y : String × Option SessionEntry) (l : Reg) :
    y ∈ insertAsc x l ↔ y = x ∨ y ∈ l := by
  induction l with
  | nil => simp [insertAsc]
  | cons z zs ih =>
      simp only [insertAsc]
      split
      · simp [List.mem_cons]
      · simp only [List.mem_cons, ih]
        tauto

/-- The sort permutes: membership is unchanged. -/
theorem mem_sortAsc (y : String × Option SessionEntry) (l : Reg) :
    y ∈ sortAsc l ↔ y ∈ l := by
  induction l with
  | nil => simp [sortAsc]
  | cons z zs ih => simp [sortAsc, mem_insertAsc, ih]

/-- Enumeration order is a permutation of the registry: membership is
unchanged. -/
theorem mem_iterOrder (y : String × Option SessionEntry) (reg : Reg) :
    y ∈ iterOrder reg ↔ y ∈ reg := by
  simp only [iterOrder, List.mem_append, mem_sortAsc, List.mem_filter]
  constructor
  · rintro (⟨h, _⟩ | ⟨h, _⟩) <;> exact h
  · intro h
    by_cases hi : isArrayIndexKey y.1
    · exact Or.inl ⟨h, by simp [hi]⟩
    · exact Or.inr ⟨h, by simp [hi]⟩

/-- When no key is an array-index key, enumeration order is insertion
order. -/
theorem iterOrder_of_no_index {reg : Reg}
    (h : ∀ p ∈ reg, isArrayIndexKey p.1 = false) : iterOrder reg = reg := by
  have h1 : reg.filter (fun p => isArrayIndexKey p.1) = [] :=
    List.filter_eq_nil_iff.mpr (by intro a ha; simp [h a ha])
  have h2 : reg.filter (fun p => !isArrayIndexKey p.1) = reg :=
    List.filter_eq_self.mpr (by intro a ha; simp [h a ha])
  simp [iterOrder, h1, h2, sortAsc]

/-- The insertion step produces a permutation of consing. -/
theorem insertAsc_perm (x : String × Option SessionEntry) (l : Reg) :
    List.Perm (insertAsc x l) (x :: l) := by
  induction l with
  | nil => simp [insertAsc]
  | cons z zs ih =>
      simp only [insertAsc]
      split
      · exact List.Perm.refl _
      · exact (List.Perm.cons z ih).trans (List.Perm.swap x z zs)

/-- The sort permutes its input. -/
theorem sortAsc_perm (l : Reg) : List.Perm (sortAsc l) l := by
  induction l with
  | nil => exact List.Perm.refl _
  | cons z zs ih => exact (insertAsc_perm z (sortAsc zs)).trans (ih.cons z)

/-- Enumeration order is a permutation of the registry. -/
theorem iterOrder_perm (reg : Reg) : List.Perm (iterOrder reg) reg :=
  ((sortAsc_perm _).append_right _).trans (List.filter_append_perm _ reg)

/-- The broadcast loop yields one result per enumerated entry. -/
theorem broadcastLoop_length (provider : String → Except String String)
    (l : Reg) : (broadcastLoop provider l).1.length = l.length := by
  induction l with
  | nil => rfl
  | cons p rest ih =>
      obtain ⟨id, ent⟩ := p
      cases ent with
      | none => simp [broadcastLoop, ih]
      | some e =>
          cases hr : e.isReady
          · simp [broadcastLoop, hr, ih]
          · cases hp : provider id with
            | ok mid => simp [broadcastLoop, hr, hp, ih]
            | error m => simp [broadcastLoop, hr, hp, ih]

/-- The results carry the enumerated session ids, in order. -/
theorem broadcastLoop_ids (provider : String → Except String String)
    (l : Reg) :
    (broadcastLoop provider l).1.map BroadcastResult.sessionId =
      l.map Prod.fst := by
  induction l with
  | nil => rfl
  | cons p rest ih =>
      obtain ⟨id, ent⟩ := p
      cases ent with
      | none => simp [broadcastLoop, ih]
      | some e =>
          cases hr : e.isReady
          · simp [broadcastLoop, hr, ih]
          · cases hp : provider id with
            | ok mid => simp [broadcastLoop, hr, hp, ih]
            | error m => simp [broadcastLoop, hr, hp, ih]

/-- The loop on a non-empty list conses one result onto the results of
the tail: a head iteration can neither remove nor alter a later result. -/
theorem broadcastLoop_cons (provider : String → Except String String)
    (p : String × Option SessionEntry) (rest : Reg) :
    ∃ r, (broadcastLoop provider (p :: rest)).1 =
      r :: (broadcastLoop provider rest).1 := by
  obtain ⟨id, ent⟩ := p
  cases ent with
  | none => exact ⟨_, rfl⟩
  | some e =>
      cases hr : e.isReady
      · exact ⟨⟨id, false, none, some "Session not ready"⟩,
          by simp [broadcastLoop, hr]⟩
      · cases hp : provider id with
        | ok mid =>
            exact ⟨⟨id, true, some mid, none⟩, by simp [broadcastLoop, hr, hp]⟩
        | error m =>
            exact ⟨⟨id, false, none, some m⟩, by simp [broadcastLoop, hr, hp]⟩

/-- A ready entry with a successful provider call contributes its success
result. -/
theorem broadcastLoop_mem_ok {provider : String → Except String String}
    {l : Reg} {id : String} {e : SessionEntry} {mid : String}
    (hmem : (id, some e) ∈ l) (hr : e.isReady = true)
    (hp : provider id = .ok mid) :
    ({ sessionId := id, success := true, messageId := some mid,
       error := none } : BroadcastResult) ∈ (broadcastLoop provider l).1 := by
  induction l with
  | nil => cases hmem
  | cons p rest ih =>
      rcases List.mem_cons.mp hmem with h | h
      · subst h
        simp [broadcastLoop, hr, hp]
      · obtain ⟨r, hcons⟩ := broadcastLoop_cons provider p rest
        rw [hcons]
        exact List.mem_cons_of_mem _ (ih h)

/-- A ready entry with a failing provider call contributes its failure
result, carrying the provider's error message. -/
theorem broadcastLoop_mem_error {provider : String → Except String String}
    {l : Reg} {id : String} {e : SessionEntry} {m : String}
    (hmem : (id, some e) ∈ l) (hr : e.isReady = true)
    (hp : provider id = .error m) :
    ({ sessionId := id, success := false, messageId := none,
       error := some m } : BroadcastResult) ∈ (broadcastLoop provider l).1 := by
  induction l with
  | nil => cases hmem
  | cons p rest ih =>
      rcases List.mem_cons.mp hmem with h | h
      · subst h
        simp [broadcastLoop, hr, hp]
      · obtain ⟨r, hcons⟩ := broadcastLoop_cons provider p rest
        rw [hcons]
        exact List.mem_cons_of_mem _ (ih h)

/-- A `null` or not-ready entry contributes the "Session not ready"
result. -/
theorem broadcastLoop_mem_notReady {provider : String → Except String String}
    {l : Reg} {id : String} {ent : Option SessionEntry}
    (hmem : (id, ent) ∈ l) (hnr : ∀ e, ent = some e → e.isReady = false) :
    ({ sessionId := id, success := false, messageId := none,
       error := some "Session not ready" } : BroadcastResult) ∈
      (broadcastLoop provider l).1 := by
  induction l with
  | nil => cases hmem
  | cons p rest ih =>
      rcases List.mem_cons.mp hmem with h | h
      · subst h
        cases ent with
        | none => simp [broadcastLoop]
        | some e => simp [broadcastLoop, hnr e rfl]
      · obtain ⟨r, hcons⟩ := broadcastLoop_cons provider p rest
        rw [hcons]
        exact List.mem_cons_of_mem _ (ih h)

/-- The provider is invoked exactly for the entries that hold a ready
session. -/
theorem broadcastLoop_calls_iff (provider : String → Except String String)
    (l : Reg) (id : String) :
    id ∈ (broadcastLoop provider l).2 ↔
      ∃ e, (id, some e) ∈ l ∧ e.isReady = true := by
  induction l with
  | nil => simp [broadcastLoop]
  | cons p rest ih =>
      obtain ⟨pid, pent⟩ := p
      cases pent with
      | none =>
          have h2 : (broadcastLoop provider ((pid, none) :: rest)).2 =
              (broadcastLoop provider rest).2 := rfl
          rw [h2, ih]
          constructor
          · rintro ⟨e, he, hr⟩
            exact ⟨e, List.mem_cons_of_mem _ he, hr⟩
          · rintro ⟨e, he, hr⟩
            rcases List.mem_cons.mp he with h | h
            · simp at h
            · exact ⟨e, h, hr⟩
      | some pe =>
          cases hpr : pe.isReady
          · have h2 : (broadcastLoop provider ((pid, some pe) :: rest)).2 =
                (broadcastLoop provider rest).2 := by
              simp [broadcastLoop, hpr]
            rw [h2, ih]
            constructor
            · rintro ⟨e, he, hr⟩
              exact ⟨e, List.mem_cons_of_mem _ he, hr⟩
            · rintro ⟨e, he, hr⟩
              rcases List.mem_cons.mp he with h | h
              · have h1 : e = pe := by
                  have h2 := congrArg Prod.snd h
                  simpa using h2
                subst h1
                rw [hpr] at hr
                simp at hr
              · exact ⟨e, h, hr⟩
          · have h2 : (broadcastLoop provider ((pid, some pe) :: rest)).2 =
                pid :: (broadcastLoop provider rest).2 := by
              cases hp : provider pid <;> simp [broadcastLoop, hpr, hp]
            rw [h2, List.mem_cons, ih]
            constructor
            · rintro (h | ⟨e, he, hr⟩)
              · exact ⟨pe, by simp [h], hpr⟩
              · exact ⟨e, List.mem_cons_of_mem _ he, hr⟩
            · rintro ⟨e, he, hr⟩
              rcases List.mem_cons.mp he with h | h
              · exact Or.inl (congrArg Prod.fst h)
              · exact Or.inr ⟨e, h, hr⟩

/-- Whether an event list contains some `qr` event. -/
def hasQrEvent : List ClientEvent → Bool
  | [] => false
  | .qr _ :: _ => true
  | _ :: rest => hasQrEvent rest

/-- Whether no `qr` event occurs after a `ready` event in the list. -/
def noQrAfterReady : List ClientEvent → Bool
  | [] => true
  | .ready :: rest => !hasQrEvent rest
  | _ :: rest => noQrAfterReady rest

/-- A list without any `qr` event trivially has no `qr` after `ready`. -/
theorem noQrAfterReady_of_no_qr {evs : List ClientEvent}
    (h : hasQrEvent evs = false) : noQrAfterReady evs = true := by
  induction evs with
  | nil => rfl
  | cons ev rest ih =>
      cases ev with
      | qr p => simp [hasQrEvent] at h
      | authenticated =>
          simp only [hasQrEvent] at h
          simpa [noQrAfterReady] using ih h
      | ready =>
          simp only [hasQrEvent] at h
          simp [noQrAfterReady, h]
      | disconnected =>
          simp only [hasQrEvent] at h
          simpa [noQrAfterReady] using ih h

/-- The invariant of interest at one key: a ready entry holds no QR
payload. -/
def readyNoQr (reg : Reg) (id : String) : Prop :=
  ∀ e, lookupKey reg id = some (some e) → e.isReady = true → e.latestQR = none

/-- The entry at a key is live and ready. -/
def entryReady (reg : Reg) (id : String) : Prop :=
  ∃ e, lookupKey reg id = some (some e) ∧ e.isReady = true

/-- A `qr` or `ready` event on a missing or `null` entry leaves the
registry unchanged (the handler throws before mutating). -/
theorem applyEvent_dead {reg : Reg} {id : String} (payload : String)
    (h : lookupKey reg id = none ∨ lookupKey reg id = some none) :
    applyEvent reg id (.qr payload) = reg ∧ applyEvent reg id .ready = reg := by
  rcases h with h | h <;> exact ⟨by simp [applyEvent, h], by simp [applyEvent, h]⟩

/-- A `qr` event on a live entry replaces its QR payload. -/
theorem applyEvent_qr_live {reg : Reg} {id : String} {e : SessionEntry}
    (h : lookupKey reg id = some (some e)) (payload : String) :
    applyEvent reg id (.qr payload) =
      setEntry reg id (some { e with latestQR := some payload }) := by
  simp [applyEvent, h]

/-- A `ready` event on a live entry marks it ready and clears the QR. -/
theorem applyEvent_ready_live {reg : Reg} {id : String} {e : SessionEntry}
    (h : lookupKey reg id = some (some e)) :
    applyEvent reg id .ready =
      setEntry reg id (some { e with isReady := true, latestQR := none }) := by
  simp [applyEvent, h]

/-- Preservation of the ready-no-QR invariant along an event sequence in
which no `qr` event follows a `ready` event. -/
theorem readyNoQr_applyEvents (id : String) :
    ∀ (evs : List ClientEvent) (reg : Reg),
      readyNoQr reg id →
      (entryReady reg id → hasQrEvent evs = false) →
      noQrAfterReady evs = true →
      readyNoQr (applyEvents reg id evs) id := by
  intro evs
  induction evs with
  | nil => exact fun reg h _ _ => h
  | cons ev rest ih =>
      intro reg hinv hready hno
      cases ev with
      | qr payload =>
          have hnr : ¬ entryReady reg id := fun hr => by
            have := hready hr
            simp [hasQrEvent] at this
          cases hl : lookupKey reg id with
          | none =>
              have heq := (applyEvent_dead payload (Or.inl hl)).1
              show readyNoQr
                (applyEvents (applyEvent reg id (.qr payload)) id rest) id
              rw [heq]
              exact ih _ hinv (fun hr => absurd hr hnr)
                (by simpa [noQrAfterReady] using hno)
          | some w =>
              cases w with
              | none =>
                  have heq := (applyEvent_dead payload (Or.inr hl)).1
                  show readyNoQr
                    (applyEvents (applyEvent reg id (.qr payload)) id rest) id
                  rw [heq]
                  exact ih _ hinv (fun hr => absurd hr hnr)
                    (by simpa [noQrAfterReady] using hno)
              | some e =>
                  have hnre : e.isReady = false := by
                    cases he : e.isReady
                    · rfl
                    · exact absurd ⟨e, hl, he⟩ hnr
                  show readyNoQr
                    (applyEvents (applyEvent reg id (.qr payload)) id rest) id
                  rw [applyEvent_qr_live hl payload]
                  apply ih
                  · intro e' he' hre'
                    rw [lookup_setEntry_self] at he'
                    have he'' : e' = { e with latestQR := some payload } := by
                      simpa using he'.symm
                    rw [he''] at hre'
                    simp [hnre] at hre'
                  · rintro ⟨e', he', hre'⟩
                    rw [lookup_setEntry_self] at he'
                    have he'' : e' = { e with latestQR := some payload } := by
                      simpa using he'.symm
                    rw [he''] at hre'
                    simp [hnre] at hre'
                  · simpa [noQrAfterReady] using hno
      | authenticated =>
          show readyNoQr
            (applyEvents (applyEvent reg id .authenticated) id rest) id
          rw [show applyEvent reg id .authenticated = reg from rfl]
          exact ih _ hinv
            (fun hr => by simpa [hasQrEvent] using hready hr)
            (by simpa [noQrAfterReady] using hno)
      | ready =>
          have hnoqr : hasQrEvent rest = false := by
            simpa [noQrAfterReady] using hno
          have hnext : readyNoQr (applyEvent reg id .ready) id := by
            intro e' he' _
            cases hl : lookupKey reg id with
            | none =>
                rw [(applyEvent_dead "" (Or.inl hl)).2, hl] at he'
                cases he'
            | some w =>
                cases w with
                | none =>
                    rw [(applyEvent_dead "" (Or.inr hl)).2, hl]
                      at he'
                    cases he'
                | some e =>
                    rw [applyEvent_ready_live hl, lookup_setEntry_self] at he'
                    have he'' :
                        e' = { e with isReady := true, latestQR := none } := by
                      simpa using he'.symm
                    rw [he'']
          exact ih _ hnext (fun _ => hnoqr) (noQrAfterReady_of_no_qr hnoqr)
      | disconnected =>
          have hnext : readyNoQr (applyEvent reg id .disconnected) id := by
            intro e' he' _
            rw [show applyEvent reg id .disconnected = setEntry reg id none
              from rfl, lookup_setEntry_self] at he'
            cases he'
          have hready' :
              entryReady (applyEvent reg id .disconnected) id →
                hasQrEvent rest = false := by
            rintro ⟨e', he', _⟩
            rw [show applyEvent reg id .disconnected = setEntry reg id none
              from rfl, lookup_setEntry_self] at he'
            cases he'
          exact ih _ hnext hready' (by simpa [noQrAfterReady] using hno)

/-- Setup on a live entry is a no-op (the guard returns). -/
theorem setupSession_of_live {st : RegState} {id : String} {e : SessionEntry}
    (h : lookupKey st.reg id = some (some e)) : setupSession st id = st := by
  simp [setupSession, h]

/-- Deleting a key that never looks up changes nothing. -/
theorem deleteKey_of_lookup_none {reg : Reg} {id : String}
    (h : lookupKey reg id = none) : deleteKey reg id = reg := by
  induction reg with
  | nil => rfl
  | cons p rest ih =>
      obtain ⟨k, w⟩ := p
      by_cases hk : k = id
      · rw [lookupKey, if_pos hk] at h
        cases h
      · rw [lookupKey, if_neg hk] at h
        simp [deleteKey, hk, ih h]

/-- With duplicate-free keys, a deleted key no longer looks up. -/
theorem lookup_deleteKey_of_nodup {reg : Reg} {id : String}
    (h : (reg.map Prod.fst).Nodup) :
    lookupKey (deleteKey reg id) id = none := by
  induction reg with
  | nil => rfl
  | cons p rest ih =>
      obtain ⟨k, w⟩ := p
      simp only [List.map_cons, List.nodup_cons] at h
      by_cases hk : k = id
      · subst hk
        simp only [deleteKey, if_pos rfl]
        exact lookup_eq_none_of_not_mem h.1
      · simp only [deleteKey, if_neg hk, lookupKey]
        exact ih h.2

/-- Writing a fresh key puts exactly one occurrence of it in the
registry. -/
theorem countKey_setEntry_absent {reg : Reg} {id : String}
    (h : lookupKey reg id = none) (v : Option SessionEntry) :
    countKey (setEntry reg id v) id = 1 := by
  induction reg with
  | nil => simp [setEntry, countKey]
  | cons p rest ih =>
      obtain ⟨k, w⟩ := p
      by_cases hk : k = id
      · rw [lookupKey, if_pos hk] at h
        cases h
      · rw [lookupKey, if_neg hk] at h
        simp only [setEntry, if_neg hk, countKey, List.filter_cons]
        rw [if_neg (by simp [hk])]
        exact ih h

/-- C1 (amended): `/api/broadcast` returns exactly one result per tracked
session, each produced by an independent per-entry computation, so one
session's failure never removes or alters another session's result; the
results follow the object's property-enumeration order — integer-like
session ids ascending first, then the remaining ids in insertion order —
which coincides with insertion order whenever no session id is an
integer-like string; a ready session with a successful provider send
yields a success result with the provider message id, a ready session
with a failing provider send yields a failure result carrying the
provider error, every `null` or not-ready entry yields a "Session not
ready" failure, and the provider is contacted exactly for the ready
entries. -/
theorem broadcast_per_session_results (reg : Reg)
    (provider : String → Except String String) :
    (apiBroadcast reg provider).length = reg.length ∧
    (apiBroadcast reg provider).map BroadcastResult.sessionId =
      (iterOrder reg).map Prod.fst ∧
    ((∀ p ∈ reg, isArrayIndexKey p.1 = false) →
      (apiBroadcast reg provider).map BroadcastResult.sessionId =
        reg.map Prod.fst) ∧
    (∀ id e mid, (id, some e) ∈ reg → e.isReady = true →
      provider id = .ok mid →
      (⟨id, true, some mid, none⟩ : BroadcastResult) ∈
        apiBroadcast reg provider) ∧
    (∀ id e m, (id, some e) ∈ reg → e.isReady = true →
      provider id = .error m →
      (⟨id, false, none, some m⟩ : BroadcastResult) ∈
        apiBroadcast reg provider) ∧
    (∀ id ent, (id, ent) ∈ reg → (∀ e, ent = some e → e.isReady = false) →
      (⟨id, false, none, some "Session not ready"⟩ : BroadcastResult) ∈
        apiBroadcast reg provider) ∧
    (∀ id, id ∈ broadcastCalls reg provider ↔
      ∃ e, (id, some e) ∈ reg ∧ e.isReady = true) := by
  refine ⟨?_, ?_, ?_, ?_, ?_, ?_, ?_⟩
  · rw [apiBroadcast, broadcastLoop_length]
    exact (iterOrder_perm reg).length_eq
  · exact broadcastLoop_ids provider (iterOrder reg)
  · intro h
    rw [apiBroadcast, broadcastLoop_ids, iterOrder_of_no_index h]
  · intro id e mid hmem hr hp
    exact broadcastLoop_mem_ok ((mem_iterOrder _ reg).mpr hmem) hr hp
  · intro id e m hmem hr hp
    exact broadcastLoop_mem_error ((mem_iterOrder _ reg).mpr hmem) hr hp
  · intro id ent hmem hnr
    exact broadcastLoop_mem_notReady ((mem_iterOrder _ reg).mpr hmem) hnr
  · intro id
    rw [broadcastCalls, broadcastLoop_calls_iff]
    constructor
    · rintro ⟨e, he, hr⟩
      exact ⟨e, (mem_iterOrder _ reg).mp he, hr⟩
    · rintro ⟨e, he, hr⟩
      exact ⟨e, (mem_iterOrder _ reg).mpr he, hr⟩

/-- C1 witness: on a registry with a ready session "A" and a not-ready
session "B", broadcast contains A's success and B's not-ready failure. -/
theorem broadcast_per_session_results_witness :
    ((⟨"A", true, some "m1", none⟩ : BroadcastResult) ∈
      apiBroadcast [("A", some ⟨0, none, true⟩), ("B", some ⟨1, none, false⟩)]
        (fun _ => .ok "m1")) ∧
    ((⟨"B", false, none, some "Session not ready"⟩ : BroadcastResult) ∈
      apiBroadcast [("A", some ⟨0, none, true⟩), ("B", some ⟨1, none, false⟩)]
        (fun _ => .ok "m1")) := by
  have h := broadcast_per_session_results
    [("A", some ⟨0, none, true⟩), ("B", some ⟨1, none, false⟩)]
    (fun _ => .ok "m1")
  exact ⟨h.2.2.2.1 "A" ⟨0, none, true⟩ "m1" (by decide) rfl rfl,
    h.2.2.2.2.2.1 "B" (some ⟨1, none, false⟩) (by decide)
      (by intro e he; cases he; rfl)⟩

/-- C1 counterexample: with session ids "b" (created first) and "1",
`for...in` enumerates the integer-like key "1" first, so the broadcast
results are not in insertion order. -/
theorem broadcast_insertion_order_cex :
    (setEntry (setEntry [] "b" (some ⟨0, none, true⟩)) "1"
      (some ⟨1, none, true⟩)).map Prod.fst = ["b", "1"] ∧
    (apiBroadcast
      (setEntry (setEntry [] "b" (some ⟨0, none, true⟩)) "1"
        (some ⟨1, none, true⟩)) (fun _ => .ok "m")).map
      BroadcastResult.sessionId = ["1", "b"] := by
  exact ⟨by decide, by decide⟩

/-- C2 (amended): an inbound provider message whose store write succeeds
persists exactly one record with the sender normalized (first "@c.us"
occurrence removed) and publishes exactly one message event on the
session's channel; when the store write fails, however, the publish is
suppressed as well, because the handler awaits `Message.create` with no
error handling and never reaches the emit. -/
theorem inbound_message_spec (sessionId msgFrom msgBody : String)
    (now : Nat) :
    handleInboundMessage sessionId msgFrom msgBody now true =
      { persisted :=
          [⟨sessionId, normalizeFrom msgFrom, sessionId, msgBody, now⟩],
        published := [.message (normalizeFrom msgFrom) msgBody now] } ∧
    handleInboundMessage sessionId msgFrom msgBody now false =
      { persisted := [], published := [] } ∧
    normalizeFrom "12345@c.us" = "12345" :=
  ⟨rfl, rfl, by decide⟩

/-- C2 counterexample: with a failing store write the handler publishes
nothing, contradicting the claim that the channel publish happens even
when the store write fails. -/
theorem inbound_store_failure_cex :
    (handleInboundMessage "A" "91@c.us" "hi" 5 false).published = [] ∧
    (handleInboundMessage "A" "91@c.us" "hi" 5 false).persisted = [] :=
  ⟨rfl, rfl⟩

/-- C3 (amended): for a session created fresh and driven by any event
sequence in which no `qr` event follows a `ready` event, a live entry in
AwaitingScan holds a non-null QR payload and a live entry in Ready holds
a null QR payload.  (Without that restriction the second half fails: the
`qr` handler stores the payload unconditionally, so a `qr` event
delivered after `ready` leaves a Ready session holding a QR payload.) -/
theorem session_state_qr_invariant (st : RegState) (id : String)
    (evs : List ClientEvent) (habs : lookupKey st.reg id = none)
    (hseq : noQrAfterReady evs = true) :
    ∀ e, lookupKey (applyEvents (setupSession st id).reg id evs) id
        = some (some e) →
      (entryState (some e) = .AwaitingScan → e.latestQR ≠ none) ∧
      (entryState (some e) = .Ready → e.latestQR = none) := by
  intro e he
  constructor
  · intro hstate
    cases hq : e.latestQR with
    | none =>
        cases hr : e.isReady
        · simp [entryState, hr, hq] at hstate
        · simp [entryState, hr] at hstate
    | some q => simp [hq]
  · intro hstate
    have hre : e.isReady = true := by
      cases hr : e.isReady
      · by_cases hq : e.latestQR.isSome
        · simp [entryState, hr, hq] at hstate
        · simp [entryState, hr, hq] at hstate
      · rfl
    have hsetup : (setupSession st id).reg =
        setEntry st.reg id (some ⟨st.clientsCreated, none, false⟩) := by
      simp [setupSession, habs]
    have hinv0 : readyNoQr (setupSession st id).reg id := by
      intro e0 he0 _
      rw [hsetup, lookup_setEntry_self] at he0
      have h0 : e0 = ⟨st.clientsCreated, none, false⟩ := by
        simpa using he0.symm
      rw [h0]
    have hready0 :
        entryReady (setupSession st id).reg id → hasQrEvent evs = false := by
      rintro ⟨e0, he0, hre0⟩
      rw [hsetup, lookup_setEntry_self] at he0
      have h0 : e0 = ⟨st.clientsCreated, none, false⟩ := by
        simpa using he0.symm
      rw [h0] at hre0
      simp at hre0
    exact readyNoQr_applyEvents id evs _ hinv0 hready0 hseq e he hre

/-- C3 witness: the sequence qr, authenticated, ready has no qr after
ready, and the resulting Ready entry holds no QR payload. -/
theorem session_state_qr_invariant_witness :
    lookupKey ([] : Reg) "A" = none ∧
    noQrAfterReady [ClientEvent.qr "i", .authenticated, .ready] = true ∧
    (⟨0, none, true⟩ : SessionEntry).latestQR = none :=
  ⟨rfl, by decide,
    (session_state_qr_invariant ⟨[], 0⟩ "A"
      [ClientEvent.qr "i", .authenticated, .ready] rfl (by decide)
      ⟨0, none, true⟩ (by decide)).2 (by decide)⟩

/-- C3 counterexample: delivering a `qr` event after `ready` leaves a
session that is in Ready yet holds a non-null QR payload, so the
invariant as claimed fails on this reachable state. -/
theorem session_state_qr_invariant_cex :
    lookupKey (applyEvents (setupSession ⟨[], 0⟩ "A").reg "A"
        [ClientEvent.ready, ClientEvent.qr "img"]) "A"
      = some (some ⟨0, some "img", true⟩) ∧
    entryState (some ⟨0, some "img", true⟩) = SessionState.Ready ∧
    (⟨0, some "img", true⟩ : SessionEntry).latestQR ≠ none := by
  exact ⟨by decide, by decide, by decide⟩

/-- C4: a send request whose session id is absent, whose entry is `null`,
or whose session is not ready gets the 400 "Session not ready" response,
with the provider never invoked and nothing persisted. -/
theorem send_not_ready (reg : Reg) (sessionId number body : String)
    (provider : Except String String) (store : Except String Unit)
    (now : Nat)
    (h : lookupKey reg sessionId = none ∨
      lookupKey reg sessionId = some none ∨
      ∃ e, lookupKey reg sessionId = some (some e) ∧ e.isReady = false) :
    apiSend reg sessionId number body provider store now =
      { providerCalled := false, persisted := [],
        response := .err 400 "Session not ready" } := by
  rcases h with h | h | ⟨e, h, hr⟩
  · simp [apiSend, h]
  · simp [apiSend, h]
  · simp [apiSend, h, hr]

/-- C4 witness: a send on the empty registry is rejected with 400 and no
provider call. -/
theorem send_not_ready_witness :
    lookupKey ([] : Reg) "A" = none ∧
    apiSend [] "A" "91" "hi" (.ok "m") (.ok ()) 0 =
      { providerCalled := false, persisted := [],
        response := .err 400 "Session not ready" } :=
  ⟨rfl, send_not_ready [] "A" "91" "hi" (.ok "m") (.ok ()) 0 (Or.inl rfl)⟩

/-- C5 (amended): on a ready session, a successful provider send whose
store write also succeeds persists exactly one record with sender "admin"
and returns the provider-issued message id; a successful provider send
whose store write fails persists nothing and answers 500 with the store
error instead of returning the message id (the message went out but is
neither recorded nor acknowledged); a failing provider send yields a 500
carrying the provider error and persists nothing, the store never being
reached. -/
theorem send_ready_spec (reg : Reg) (sessionId number body : String)
    (e : SessionEntry) (now : Nat)
    (h : lookupKey reg sessionId = some (some e)) (hr : e.isReady = true) :
    (∀ mid, apiSend reg sessionId number body (.ok mid) (.ok ()) now =
      { providerCalled := true,
        persisted := [⟨sessionId, "admin", number, body, now⟩],
        response := .ok mid }) ∧
    (∀ mid se, apiSend reg sessionId number body (.ok mid) (.error se) now =
      { providerCalled := true, persisted := [],
        response := .err 500 se }) ∧
    (∀ m store, apiSend reg sessionId number body (.error m) store now =
      { providerCalled := true, persisted := [],
        response := .err 500 m }) := by
  refine ⟨?_, ?_, ?_⟩
  · intro mid
    simp [apiSend, h, hr]
  · intro mid se
    simp [apiSend, h, hr]
  · intro m store
    simp [apiSend, h, hr]

/-- C5 witness: on a concrete ready session, the success path, the
store-failure path and the provider-failure path behave as proved. -/
theorem send_ready_spec_witness :
    lookupKey [("A", some ⟨0, none, true⟩)] "A" = some (some ⟨0, none, true⟩) ∧
    apiSend [("A", some ⟨0, none, true⟩)] "A" "91" "hi" (.ok "mid1")
        (.ok ()) 7 =
      { providerCalled := true,
        persisted := [⟨"A", "admin", "91", "hi", 7⟩],
        response := .ok "mid1" } ∧
    apiSend [("A", some ⟨0, none, true⟩)] "A" "91" "hi" (.ok "mid1")
        (.error "no db") 7 =
      { providerCalled := true, persisted := [],
        response := .err 500 "no db" } ∧
    apiSend [("A", some ⟨0, none, true⟩)] "A" "91" "hi" (.error "boom")
        (.ok ()) 7 =
      { providerCalled := true, persisted := [],
        response := .err 500 "boom" } :=
  ⟨by decide,
    (send_ready_spec [("A", some ⟨0, none, true⟩)] "A" "91" "hi"
      ⟨0, none, true⟩ 7 (by decide) rfl).1 "mid1",
    (send_ready_spec [("A", some ⟨0, none, true⟩)] "A" "91" "hi"
      ⟨0, none, true⟩ 7 (by decide) rfl).2.1 "mid1" "no db",
    (send_ready_spec [("A", some ⟨0, none, true⟩)] "A" "91" "hi"
      ⟨0, none, true⟩ 7 (by decide) rfl).2.2 "boom" (.ok ())⟩

/-- C5 counterexample: on a ready session whose provider send succeeds
but whose store write fails, nothing is persisted and the response is a
500 with the store error, not the provider-issued message id the claim
promises for every successful provider send. -/
theorem send_store_failure_cex :
    apiSend [("A", some ⟨0, none, true⟩)] "A" "91" "hi" (.ok "mid1")
        (.error "db down") 7 =
      { providerCalled := true, persisted := [],
        response := .err 500 "db down" } ∧
    (SendResponse.err 500 "db down") ≠ SendResponse.ok "mid1" := by
  exact ⟨by decide, by decide⟩

/-- C6 (amended): joining a session's channel replays the current state
immediately and as a function of that state alone: an AwaitingScan
session replays its current QR payload, and a Ready session holding no QR
payload — the well-formed Ready state — replays the ready signal.  (A
Ready session still holding a QR payload, reachable when a `qr` event
follows `ready`, replays the QR instead of the ready signal.) -/
theorem join_replays_current_state (reg : Reg) (id : String)
    (e : SessionEntry) (h : lookupKey reg id = some (some e)) :
    (entryState (some e) = .AwaitingScan →
      ∃ q, e.latestQR = some q ∧ joinReplay reg id = some (.qr q)) ∧
    (entryState (some e) = .Ready → e.latestQR = none →
      joinReplay reg id = some .ready) := by
  constructor
  · intro hstate
    cases hq : e.latestQR with
    | none =>
        cases hr : e.isReady
        · simp [entryState, hr, hq] at hstate
        · simp [entryState, hr] at hstate
    | some q =>
        refine ⟨q, rfl, ?_⟩
        simp [joinReplay, h, hq]
  · intro hstate hq
    have hr : e.isReady = true := by
      cases hr : e.isReady
      · by_cases hqq : e.latestQR.isSome
        · simp [entryState, hr, hqq] at hstate
        · simp [entryState, hr, hqq] at hstate
      · rfl
    simp [joinReplay, h, hq, hr]

/-- C6 witness: joining the channel of a concrete Ready session with no
QR payload replays the ready signal at once. -/
theorem join_replays_current_state_witness :
    lookupKey [("A", some ⟨0, none, true⟩)] "A" =
      some (some ⟨0, none, true⟩) ∧
    entryState (some (⟨0, none, true⟩ : SessionEntry)) =
      SessionState.Ready ∧
    joinReplay [("A", some ⟨0, none, true⟩)] "A" = some ChannelEvent.ready :=
  ⟨by decide, by decide,
    (join_replays_current_state [("A", some ⟨0, none, true⟩)] "A"
      ⟨0, none, true⟩ (by decide)).2 (by decide) rfl⟩

/-- C6 counterexample: after `ready` followed by `qr`, the session is
Ready — the status endpoint reports ready — yet the join replays the
stale QR payload, not the ready signal the claim promises for Ready
sessions. -/
theorem join_ready_replay_cex :
    lookupKey (applyEvents (setupSession ⟨[], 0⟩ "B").reg "B"
        [ClientEvent.ready, ClientEvent.qr "img"]) "B"
      = some (some ⟨0, some "img", true⟩) ∧
    apiStatus (applyEvents (setupSession ⟨[], 0⟩ "B").reg "B"
        [ClientEvent.ready, ClientEvent.qr "img"]) "B" = true ∧
    joinReplay (applyEvents (setupSession ⟨[], 0⟩ "B").reg "B"
        [ClientEvent.ready, ClientEvent.qr "img"]) "B"
      = some (ChannelEvent.qr "img") ∧
    some (ChannelEvent.qr "img") ≠ some ChannelEvent.ready := by
  exact ⟨by decide, by decide, by decide, by decide⟩

/-- C7: any number n ≥ 1 of `setupSession(id)` calls for the same absent
id — each call's registry phase running atomically on the event loop, in
any order relative to the pending initializations — constructs exactly
one MessagingClient and leaves exactly one fresh entry for the id in the
registry: the first call creates client and entry, every further call
returns at the guard. -/
theorem getOrCreate_single_flight (st : RegState) (id : String) (n : Nat)
    (habs : lookupKey st.reg id = none) (hn : 1 ≤ n) :
    (fun s => setupSession s id)^[n] st = setupSession st id ∧
    (setupSession st id).clientsCreated = st.clientsCreated + 1 ∧
    lookupKey (setupSession st id).reg id =
      some (some ⟨st.clientsCreated, none, false⟩) ∧
    countKey (setupSession st id).reg id = 1 := by
  have hsetup : setupSession st id =
      { reg := setEntry st.reg id (some ⟨st.clientsCreated, none, false⟩),
        clientsCreated := st.clientsCreated + 1 } := by
    simp [setupSession, habs]
  have hlook : lookupKey (setupSession st id).reg id =
      some (some ⟨st.clientsCreated, none, false⟩) := by
    rw [hsetup]
    exact lookup_setEntry_self _ _ _
  have hfix : setupSession (setupSession st id) id = setupSession st id :=
    setupSession_of_live hlook
  refine ⟨?_, by rw [hsetup], hlook, ?_⟩
  · obtain ⟨m, rfl⟩ : ∃ m, n = m + 1 := ⟨n - 1, by omega⟩
    clear hn
    induction m with
    | zero => rfl
    | succ k ih =>
        rw [Function.iterate_succ_apply', ih]
        exact hfix
  · rw [hsetup]
    exact countKey_setEntry_absent habs _

/-- C7 witness: three calls for the fresh id "A" on the empty registry
create one client (count 1) and one entry. -/
theorem getOrCreate_single_flight_witness :
    lookupKey ([] : Reg) "A" = none ∧ 1 ≤ 3 ∧
    ((fun s => setupSession s "A")^[3] ⟨[], 0⟩ =
        setupSession ⟨[], 0⟩ "A" ∧
      (setupSession (⟨[], 0⟩ : RegState) "A").clientsCreated = 0 + 1 ∧
      lookupKey (setupSession (⟨[], 0⟩ : RegState) "A").reg "A" =
        some (some ⟨0, none, false⟩) ∧
      countKey (setupSession (⟨[], 0⟩ : RegState) "A").reg "A" = 1) :=
  ⟨rfl, by decide, getOrCreate_single_flight ⟨[], 0⟩ "A" 3 rfl (by decide)⟩

/-- C8 (amended): removal via the delete endpoint, when the
credential-store delete succeeds, answers success and removes the key,
tolerating a missing or already-removed entry and idempotent — a second
delete leaves the registry exactly as the first — with a provider destroy
(though not a logout) attempted when the entry exists; when the
credential-store delete fails, the endpoint answers 500 and the registry
is untouched.  Removal via the logout endpoint is neither idempotent nor
tolerant: a missing or `null` entry fails with 400 "Session not found"
whatever the provider would do; when the entry holds a client, provider
logout and destroy are awaited in order with no error handling, and only
when both resolve is the entry nulled and success answered — a rejection
of either aborts the handler with the entry still in place and no
response sent. -/
theorem remove_endpoints_spec (reg : Reg) (id : String)
    (hnd : (reg.map Prod.fst).Nodup) :
    (apiDeleteSession reg id (.ok ())).reg = deleteKey reg id ∧
    (apiDeleteSession reg id (.ok ())).response =
      some (.ok (id ++ " session deleted")) ∧
    lookupKey (apiDeleteSession reg id (.ok ())).reg id = none ∧
    (apiDeleteSession (apiDeleteSession reg id (.ok ())).reg id
      (.ok ())).reg = (apiDeleteSession reg id (.ok ())).reg ∧
    (∀ m, apiDeleteSession reg id (.error m) =
      ⟨reg, some (.err 500 m), false, false⟩) ∧
    ((lookupKey reg id = none ∨ lookupKey reg id = some none) →
      ∀ lr dr, apiLogout reg id lr dr =
        ⟨reg, some (.err 400 "Session not found"), false, false⟩) ∧
    (∀ e, lookupKey reg id = some (some e) →
      apiLogout reg id (.ok ()) (.ok ()) =
        ⟨setEntry reg id none, some (.ok (id ++ " logged out")),
          true, true⟩ ∧
      (apiDeleteSession reg id (.ok ())).destroyCalled = true ∧
      (apiLogout (apiLogout reg id (.ok ()) (.ok ())).reg id (.ok ())
        (.ok ())).response = some (.err 400 "Session not found") ∧
      (∀ m dr, apiLogout reg id (.error m) dr = ⟨reg, none, true, false⟩) ∧
      (∀ m, apiLogout reg id (.ok ()) (.error m) =
        ⟨reg, none, true, true⟩)) := by
  have hnone : lookupKey (deleteKey reg id) id = none :=
    lookup_deleteKey_of_nodup hnd
  refine ⟨rfl, rfl, hnone, ?_, ?_, ?_, ?_⟩
  · show deleteKey (deleteKey reg id) id = deleteKey reg id
    exact deleteKey_of_lookup_none hnone
  · intro m
    rfl
  · rintro (h | h) lr dr <;> simp [apiLogout, h]
  · intro e he
    refine ⟨by simp [apiLogout, he], by simp [apiDeleteSession, he],
      ?_, ?_, ?_⟩
    · have hlog : (apiLogout reg id (.ok ()) (.ok ())).reg =
          setEntry reg id none := by
        simp [apiLogout, he]
      rw [hlog]
      simp [apiLogout, lookup_setEntry_self]
    · intro m dr
      simp [apiLogout, he]
    · intro m
      simp [apiLogout, he]

/-- C8 witness: deleting a concrete live session succeeds; logging it out
with both teardown calls resolving nulls the entry and answers success;
logging it out with a rejecting provider logout aborts with the registry
untouched, destroy never reached and no response sent. -/
theorem remove_endpoints_spec_witness :
    (([("A", some ⟨0, none, true⟩)] : Reg).map Prod.fst).Nodup ∧
    (apiDeleteSession [("A", some ⟨0, none, true⟩)] "A" (.ok ())).response =
      some (TeardownResponse.ok ("A" ++ " session deleted")) ∧
    apiLogout [("A", some ⟨0, none, true⟩)] "A" (.ok ()) (.ok ()) =
      ⟨setEntry [("A", some ⟨0, none, true⟩)] "A" none,
        some (.ok ("A" ++ " logged out")), true, true⟩ ∧
    apiLogout [("A", some ⟨0, none, true⟩)] "A" (.error "net") (.ok ()) =
      ⟨[("A", some ⟨0, none, true⟩)], none, true, false⟩ :=
  ⟨by decide,
    (remove_endpoints_spec [("A", some ⟨0, none, true⟩)] "A" (by decide)).2.1,
    ((remove_endpoints_spec [("A", some ⟨0, none, true⟩)] "A"
      (by decide)).2.2.2.2.2.2 ⟨0, none, true⟩ (by decide)).1,
    ((remove_endpoints_spec [("A", some ⟨0, none, true⟩)] "A"
      (by decide)).2.2.2.2.2.2 ⟨0, none, true⟩ (by decide)).2.2.2.1
      "net" (.ok ())⟩

/-- C8 counterexample: logging out an absent id fails with 400 "Session
not found", and a second logout after a completed one fails the same way,
so remove via the logout endpoint neither tolerates a missing entry nor
is idempotent. -/
theorem remove_absent_cex :
    (apiLogout [] "A" (.ok ()) (.ok ())).response =
      some (TeardownResponse.err 400 "Session not found") ∧
    (apiLogout (apiLogout [("A", some ⟨0, none, true⟩)] "A" (.ok ())
        (.ok ())).reg "A" (.ok ()) (.ok ())).response =
      some (TeardownResponse.err 400 "Session not found") := by
  exact ⟨rfl, by decide⟩

/-- C9: removing a session and re-creating it yields a fresh entry — no
QR payload, not ready — whatever QR payload or readiness the entry held
before removal, both through a completed logout's registry effect and
through a completed delete's. -/
theorem remove_then_create_fresh (st : RegState) (id : String)
    (hnd : (st.reg.map Prod.fst).Nodup) :
    (∀ e, lookupKey st.reg id = some (some e) →
      lookupKey (setupSession ⟨(apiLogout st.reg id (.ok ()) (.ok ())).reg,
        st.clientsCreated⟩ id).reg id =
        some (some ⟨st.clientsCreated, none, false⟩)) ∧
    lookupKey (setupSession ⟨(apiDeleteSession st.reg id (.ok ())).reg,
      st.clientsCreated⟩ id).reg id =
      some (some ⟨st.clientsCreated, none, false⟩) := by
  constructor
  · intro e he
    have hlog : (apiLogout st.reg id (.ok ()) (.ok ())).reg =
        setEntry st.reg id none := by
      simp [apiLogout, he]
    rw [hlog]
    simp [setupSession, lookup_setEntry_self]
  · have hl : lookupKey (deleteKey st.reg id) id = none :=
      lookup_deleteKey_of_nodup hnd
    show lookupKey (setupSession ⟨deleteKey st.reg id,
      st.clientsCreated⟩ id).reg id = _
    simp [setupSession, hl, lookup_setEntry_self]

/-- C9 witness: a session that was ready and held a QR payload is
re-created fresh after a completed logout. -/
theorem remove_then_create_fresh_witness :
    (([("A", some ⟨7, some "img", true⟩)] : Reg).map Prod.fst).Nodup ∧
    lookupKey [("A", some ⟨7, some "img", true⟩)] "A" =
      some (some ⟨7, some "img", true⟩) ∧
    lookupKey (setupSession ⟨(apiLogout [("A", some ⟨7, some "img", true⟩)]
      "A" (.ok ()) (.ok ())).reg, 5⟩ "A").reg "A" =
      some (some ⟨5, none, false⟩) :=
  ⟨by decide, by decide,
    (remove_then_create_fresh ⟨[("A", some ⟨7, some "img", true⟩)], 5⟩ "A"
      (by decide)).1 ⟨7, some "img", true⟩ (by decide)⟩

/-- C10: a `disconnected` event (and likewise a successful logout) keeps
the id as a tracked key mapped to `null` rather than deleting it: the
session list still includes the id with isReady and hasQR false,
broadcast still returns a "Session not ready" result for it, the status
read reports not ready, and a subsequent `setupSession` builds a fresh
session because the `null` entry has no client. -/
theorem disconnected_keeps_null_key (reg : Reg) (id : String)
    (ent : Option SessionEntry) (h : lookupKey reg id = some ent)
    (provider : String → Except String String) (c : Nat) :
    lookupKey (applyEvent reg id .disconnected) id = some none ∧
    (⟨id, false, false⟩ : SessionSummary) ∈
      apiSessions (applyEvent reg id .disconnected) ∧
    (⟨id, false, none, some "Session not ready"⟩ : BroadcastResult) ∈
      apiBroadcast (applyEvent reg id .disconnected) provider ∧
    apiStatus (applyEvent reg id .disconnected) id = false ∧
    lookupKey (setupSession ⟨applyEvent reg id .disconnected, c⟩ id).reg id =
      some (some ⟨c, none, false⟩) ∧
    (∀ e, ent = some e →
      lookupKey (apiLogout reg id (.ok ()) (.ok ())).reg id = some none) := by
  have hlook : lookupKey (applyEvent reg id .disconnected) id = some none :=
    lookup_setEntry_self _ _ _
  have hmem : (id, (none : Option SessionEntry)) ∈
      applyEvent reg id .disconnected := lookup_mem hlook
  refine ⟨hlook, ?_, ?_, ?_, ?_, ?_⟩
  · exact List.mem_map_of_mem _ ((mem_iterOrder _ _).mpr hmem)
  · exact broadcastLoop_mem_notReady ((mem_iterOrder _ _).mpr hmem)
      (fun e he => by cases he)
  · simp [apiStatus, hlook]
  · show lookupKey (setupSession ⟨setEntry reg id none, c⟩ id).reg id = _
    simp [setupSession, lookup_setEntry_self]
  · intro e he
    rw [he] at h
    simp [apiLogout, h, lookup_setEntry_self]

/-- C10 witness: after disconnecting a concrete ready session, its key
remains with a `null` value, status reports not ready, and the list and
broadcast still carry the id. -/
theorem disconnected_keeps_null_key_witness :
    lookupKey [("A", some ⟨0, none, true⟩)] "A" =
      some (some ⟨0, none, true⟩) ∧
    apiStatus (applyEvent [("A", some ⟨0, none, true⟩)] "A"
      ClientEvent.disconnected) "A" = false :=
  ⟨by decide,
    (disconnected_keeps_null_key [("A", some ⟨0, none, true⟩)] "A"
      (some ⟨0, none, true⟩) (by decide) (fun _ => .ok "m") 3).2.2.2.1⟩

end WhatsAppServer
